import Mathlib

/-!
Verification development for the esp32-light-distance-mqtt firmware.

The definitions below are a shallow embedding of the two resilience
subsystems of the firmware: the OTA Update Controller
(components/ota_manager/ota_manager.c), the Telegram Message Ingestion
Loop and Command Dispatcher (components/telegram_manager/telegram.c) and
the deep-sleep policy store (components/deepsleep_manager/deepsleep_manager.c).

External collaborators (HTTP transport, mbedTLS digests, NVS, FreeRTOS)
are abstracted as environment records whose fields give the observable
results of the corresponding library calls; the repository logic itself
is translated statement by statement.
-/

namespace Esp32

/-! ### Models of the C library routines used by the firmware
(strcasecmp, strncasecmp, strtoull, printf "%llu" rendering). -/

/-- ASCII tolower, as used by strcasecmp / strncasecmp. -/
def asciiLower (c : Char) : Char :=
  if 'A' ≤ c ∧ c ≤ 'Z' then Char.ofNat (c.toNat + 32) else c

/-- strcasecmp(a, b) == 0. -/
def strcaseEq (a b : String) : Bool :=
  a.data.map asciiLower == b.data.map asciiLower

/-- strncasecmp(t, p, strlen(p)) == 0: case-insensitive check that `p`
is a prefix of `t`. -/
def strncaseEqPfx (t p : List Char) : Bool :=
  (t.take p.length).map asciiLower == p.map asciiLower

/-- Decimal digits, most significant first; structural recursion on a
fuel argument so the definition reduces inside the kernel. -/
def natDigitsGo : Nat → Nat → List Nat
  | 0, n => [n]
  | fuel + 1, n => if n < 10 then [n] else natDigitsGo fuel (n / 10) ++ [n % 10]

/-- Decimal digits of a natural number, most significant first. -/
def natDigits (n : Nat) : List Nat := natDigitsGo n n

/-- One decimal digit as a character. -/
def digitChar (d : Nat) : Char := Char.ofNat (48 + d)

/-- Decimal rendering of a natural number (printf "%llu" on a uint64). -/
def natChars (n : Nat) : List Char := (natDigits n).map digitChar

/-- Decimal rendering of an int64 (printf "%lld"). -/
def intChars (i : Int) : List Char :=
  if i < 0 then '-' :: natChars i.natAbs else natChars i.toNat

/-- Numeric value of a digit string (each char assumed a decimal digit). -/
def digitsVal (l : List Char) : Nat :=
  l.foldl (fun a c => a * 10 + (c.toNat - 48)) 0

/-- Value of the maximal leading run of decimal digits, or none when the
string does not start with a digit (strtoull leaves endptr == nptr). -/
def strtoullCore (s : List Char) : Option Nat :=
  if (s.takeWhile Char.isDigit).isEmpty then none
  else some (digitsVal (s.takeWhile Char.isDigit))

/-- Clamp to ULLONG_MAX, as strtoull does on overflow. -/
def u64clamp (v : Nat) : Nat := min v (2 ^ 64 - 1)

/-- Model of strtoull(s, &end, 10) on the argument strings the firmware
passes (leading spaces already stripped by the callers): an optional
sign followed by decimal digits. A minus sign negates the value in the
unsigned return type (C99 7.20.1.4); overflow clamps to ULLONG_MAX.
Returns none exactly when no digits were consumed (end == s). -/
def strtoull10 (s : List Char) : Option Nat :=
  if s.head? = some '-' then
    (strtoullCore s.tail).map fun v =>
      if v ≤ 2 ^ 64 - 1 then (2 ^ 64 - v) % 2 ^ 64 else 2 ^ 64 - 1
  else if s.head? = some '+' then (strtoullCore s.tail).map u64clamp
  else (strtoullCore s).map u64clamp

/-- Split a character buffer at the first newline, strchr-style:
returns the text before the first '\n' and, when a '\n' exists,
the remainder after it. -/
def breakAtNl : List Char → List Char × Option (List Char)
  | [] => ([], none)
  | c :: rest =>
    if c = '\n' then ([], some rest)
    else (c :: (breakAtNl rest).1, (breakAtNl rest).2)

/-! ### Message Ingestion Loop (components/telegram_manager/telegram.c)

An HTTP getUpdates response body is abstracted as the ordered sequence
of update entries the strstr scan over "update_id" finds in it; each
entry carries the values the extraction helpers (extract_json_int,
extract_json_string, extract_chat_id_from_update) would return at that
position. -/

/-- One update entry of a getUpdates response body. -/
structure Upd where
  uid : Int
  text : Option String
  chat : Int
deriving Repr, DecidableEq

/-- MAX_UPDATES from telegram_task: at most 64 "update_id" positions are
recorded per response. -/
def MAX_UPDATES : Nat := 64

/-- process_updates from telegram.c: walks the recorded update positions in
response order; an update is skipped when the cursor check is active and its
id is not above last_update_id, otherwise it is dispatched and folded into
the running maximum. Returns the dispatched updates in order and the final
maximum. -/
def process_updates (ignoreLastCursor : Bool) (lastUpdateId : Int) :
    List Upd → Int → List Upd × Int
  | [], maxUid => ([], maxUid)
  | u :: rest, maxUid =>
    if ignoreLastCursor = false ∧ u.uid ≤ lastUpdateId then
      process_updates ignoreLastCursor lastUpdateId rest maxUid
    else
      let maxUid' := if maxUid < u.uid then u.uid else maxUid
      let (ds, m) := process_updates ignoreLastCursor lastUpdateId rest maxUid'
      (u :: ds, m)

/-- Environment of one iteration of telegram_task: the bodies returned by
http_get for the three possible requests (none models an http_get failure). -/
structure TgEnv where
  offsetResponse : Option (List Upd)
  noOffsetResponse : Option (List Upd)
  fallbackResponse : Option (List Upd)

/-- Observable outcome of one iteration of the telegram_task loop. -/
structure CycleResult where
  batch : List Upd
  dispatched : List Upd
  newCursor : Int
  persisted : Bool
  fallbackRequests : Nat
  staleCursorMode : Bool
deriving Repr, DecidableEq

/-- Tail of a cycle once the update batch and the stale-cursor flag are
fixed: run process_updates, then update and persist the cursor only when
the maximum processed id exceeds it. -/
def telegram_finish (updates : List Upd) (ignore : Bool) (lastUpdateId : Int)
    (fb : Nat) : CycleResult :=
  if lastUpdateId < (process_updates ignore lastUpdateId updates lastUpdateId).2 then
    ⟨updates, (process_updates ignore lastUpdateId updates lastUpdateId).1,
      (process_updates ignore lastUpdateId updates lastUpdateId).2, true, fb, ignore⟩
  else
    ⟨updates, (process_updates ignore lastUpdateId updates lastUpdateId).1,
      lastUpdateId, false, fb, ignore⟩

/-- Fallback leg of a cycle: one getUpdates request without an offset;
when it yields a non-empty batch, the cursor check is suspended exactly
when the persisted cursor id is absent from the batch. -/
def telegram_fallback (env : TgEnv) (lastUpdateId : Int) : CycleResult :=
  match env.fallbackResponse with
  | none => ⟨[], [], lastUpdateId, false, 1, false⟩
  | some resp2 =>
    telegram_finish (resp2.take MAX_UPDATES)
      (if (resp2.take MAX_UPDATES).length > 0 then
         !((resp2.take MAX_UPDATES).any fun u => u.uid == lastUpdateId)
       else false) lastUpdateId 1

/-- Continuation of a cycle once the first request returned a body: scan
for at most MAX_UPDATES entries; an empty scan after an offset-based
request triggers the fallback leg. -/
def telegram_cycle_resp (env : TgEnv) (lastUpdateId : Int) (resp : List Upd) : CycleResult :=
  if (resp.take MAX_UPDATES).isEmpty ∧ lastUpdateId ≠ 0 then
    telegram_fallback env lastUpdateId
  else
    telegram_finish (resp.take MAX_UPDATES) false lastUpdateId 0

/-- One iteration of the perpetual loop in telegram_task: offset request
when a cursor exists (otherwise a request without offset), scan of the
body, fallback handling, then process_updates and cursor persistence. -/
def telegram_cycle (env : TgEnv) (lastUpdateId : Int) : CycleResult :=
  match (if lastUpdateId ≠ 0 then env.offsetResponse else env.noOffsetResponse) with
  | none => ⟨[], [], lastUpdateId, false, 0, false⟩
  | some resp => telegram_cycle_resp env lastUpdateId resp

/-- Per-cycle invariant of the ingestion loop, over the cursor the cycle
started from: (1) outside the stale-cursor recovery mode every dispatched
update id is strictly above the cursor; (2) dispatch follows the server's
array order (a sublist of the processed batch, never re-sorted); (3) the
new cursor is the running maximum of the dispatched ids seeded with the
old cursor; (4) the cursor never decreases; (5) it is persisted exactly
when it strictly increased. -/
def CycleInv (cursor : Int) (r : CycleResult) : Prop :=
  (r.staleCursorMode = false → ∀ u ∈ r.dispatched, cursor < u.uid) ∧
  r.dispatched.Sublist r.batch ∧
  r.newCursor = (r.dispatched.map Upd.uid).foldl max cursor ∧
  cursor ≤ r.newCursor ∧
  (r.persisted = true ↔ cursor < r.newCursor)

/-- Scenario A fixture: fallback body with ids 98,99,100,101. -/
def tgEnvA : TgEnv :=
  ⟨some [], some [], some [⟨98, none, 7⟩, ⟨99, none, 7⟩, ⟨100, none, 7⟩, ⟨101, none, 7⟩]⟩

/-- Scenario B fixture: fallback body with ids 120,121 (cursor 50 absent). -/
def tgEnvB : TgEnv :=
  ⟨some [], some [], some [⟨120, none, 7⟩, ⟨121, none, 7⟩]⟩

/-- Fixture body for the cycle-invariant and 64-cap witnesses: 70 update
entries, ids 101..170. -/
def tgRespC : List Upd :=
  (List.range 70).map fun k => (⟨101 + (k : Int), none, 7⟩ : Upd)

/-- Fixture environment delivering tgRespC on the offset request. -/
def tgEnvC : TgEnv := ⟨some tgRespC, some [], none⟩

/-! ### Deep-sleep policy store (components/deepsleep_manager/deepsleep_manager.c)

The sleep.txt content is modelled as its character list; the in-memory
module state (interval_ms, idle_timeout_ms, enabled_flag) and the file
are carried in one record. The write syscalls (fopen "w" / fwrite /
fflush / fsync) are modelled as succeeding. -/

structure DsState where
  interval_ms : Nat
  idle_timeout_ms : Nat
  enabled_flag : Bool
  file : Option (List Char)
  storage_root_ok : Bool
deriving Repr, DecidableEq

/-- Value a strtoull-parsed config line contributes, with 0 kept on a
parse failure (endptr == tmp leaves the boot default in place). -/
def ds_num (l : List Char) : Nat :=
  match strtoull10 l with
  | some v => v
  | none => 0

/-- Second config line: parsed only when non-empty. -/
def ds_idle_of_line (l : List Char) : Nat :=
  if l.isEmpty then 0 else ds_num l

/-- Third config line: enabled iff it is exactly "1"; parsed only when
non-empty. -/
def ds_flag_of_line (l : List Char) : Bool :=
  if l.isEmpty then false else l == ['1']

/-- Fields deepsleep_manager_init derives from a sleep.txt buffer,
starting from the boot defaults (0, 0, false): line 1 interval, line 2
idle timeout, line 3 enabled flag; any content past the third line is
ignored by the reader. -/
def ds_parse (content : List Char) : Nat × Nat × Bool :=
  match breakAtNl content with
  | (l1, none) => (ds_num l1, 0, false)
  | (l1, some rest1) =>
    match breakAtNl rest1 with
    | (l2, none) => (ds_num l1, ds_idle_of_line l2, false)
    | (l2, some rest2) =>
      (ds_num l1, ds_idle_of_line l2, ds_flag_of_line (breakAtNl rest2).1)

/-- Buffer written by persist_sleep_config: "%llu\n%llu\n%u\n" over the
in-memory interval, idle timeout and enabled flag. -/
def render_sleep_config (interval idle : Nat) (enabled : Bool) : List Char :=
  natChars interval ++ '\n' ::
    (natChars idle ++ '\n' :: ((if enabled then ['1'] else ['0']) ++ ['\n']))

/-- persist_sleep_config: direct overwrite of sleep.txt with exactly the
three known fields. -/
def persist_sleep_config (s : DsState) : Bool × DsState :=
  (true, { s with
    file := some (render_sleep_config s.interval_ms s.idle_timeout_ms s.enabled_flag) })

/-- deepsleep_manager_set_interval_ms: rewrites the first line of
sleep.txt to the new value, appending everything after the first newline
of the previous content unchanged, then updates the in-memory value. -/
def deepsleep_manager_set_interval_ms (ms : Nat) (s : DsState) : Bool × DsState :=
  if s.storage_root_ok = false then (false, s)
  else
    (true, { s with
      interval_ms := ms,
      file := some (natChars ms ++ '\n' ::
        (match s.file with
         | none => []
         | some existing =>
           match (breakAtNl existing).2 with
           | some rest => rest
           | none => [])) })

/-- deepsleep_manager_set_idle_timeout_ms: builds and writes a buffer
that keeps the first line, replaces the second, and keeps the remainder
after the second newline — and then immediately calls
persist_sleep_config (whose Boolean result the C code discards), which
overwrites the file again with exactly the three known fields. -/
def deepsleep_manager_set_idle_timeout_ms (ms : Nat) (s : DsState) : Bool × DsState :=
  if s.storage_root_ok = false then (false, s)
  else
    let newbuf : List Char :=
      match s.file with
      | none => '\n' :: (natChars ms ++ ['\n'])
      | some existing =>
        match breakAtNl existing with
        | (_, none) => existing ++ '\n' :: (natChars ms ++ ['\n'])
        | (l1, some rest1) =>
          l1 ++ '\n' :: (natChars ms ++ '\n' ::
            (match (breakAtNl rest1).2 with
             | some rest2 => rest2
             | none => []))
    (true, (persist_sleep_config
      { s with idle_timeout_ms := ms, file := some newbuf }).2)

/-- deepsleep_manager_set_enabled: updates the flag and persists the full
config via persist_sleep_config. -/
def deepsleep_manager_set_enabled (enabled : Bool) (s : DsState) : Bool × DsState :=
  if s.storage_root_ok = false then (false, s)
  else
    ((persist_sleep_config { s with enabled_flag := enabled }).1,
     (persist_sleep_config { s with enabled_flag := enabled }).2)

def deepsleep_manager_get_interval_ms (s : DsState) : Nat := s.interval_ms

def deepsleep_manager_get_idle_timeout_ms (s : DsState) : Nat := s.idle_timeout_ms

def deepsleep_manager_is_enabled (s : DsState) : Bool := s.enabled_flag

/-- deepsleep_manager_force_sleep: true exactly when esp_deep_sleep_start
is reached (the C call then does not return). -/
def deepsleep_manager_force_sleep (s : DsState) : Bool :=
  if s.interval_ms = 0 then false
  else if s.enabled_flag = false then false
  else true

/-! ### Command Dispatcher (handle_incoming_message in telegram.c) -/

/-- Observable outcome of handle_incoming_message: the replies sent via
telegram_send_message in order, the policy-store state afterwards,
whether a deep sleep was started, and whether the text was forwarded to
a registered external handler. -/
structure CmdResult where
  replies : List String
  ds : DsState
  sleepStarted : Bool
  forwardedToHandler : Bool
deriving Repr, DecidableEq

/-- Branch of handle_incoming_message for /setdeepsleepduration. -/
def cmd_set_duration (ds : DsState) (arg : List Char) : CmdResult :=
  if arg.isEmpty then
    ⟨["Usage: /setdeepsleepduration <milliseconds>"], ds, false, false⟩
  else
    match strtoull10 arg with
    | none => ⟨["Invalid value. Provide milliseconds between 1000 and 604800000."],
               ds, false, false⟩
    | some val =>
      if val < 1000 ∨ val > 604800000 then
        ⟨["Invalid value. Provide milliseconds between 1000 and 604800000."],
         ds, false, false⟩
      else
        match deepsleep_manager_set_interval_ms val ds with
        | (true, ds1) =>
          ⟨["deepsleep interval set to " ++ String.mk (natChars val) ++ " ms"],
           ds1, false, false⟩
        | (false, ds1) => ⟨["Failed to persist deepsleep interval."], ds1, false, false⟩

/-- Branch of handle_incoming_message for /setdeepsleepdelay. -/
def cmd_set_delay (ds : DsState) (arg : List Char) : CmdResult :=
  if arg.isEmpty then
    ⟨["Usage: /setdeepsleepdelay <milliseconds>"], ds, false, false⟩
  else
    match strtoull10 arg with
    | none => ⟨["Invalid value. Provide milliseconds between 100 and 86400000."],
               ds, false, false⟩
    | some val =>
      if val < 100 ∨ val > 86400000 then
        ⟨["Invalid value. Provide milliseconds between 100 and 86400000."],
         ds, false, false⟩
      else
        match deepsleep_manager_set_idle_timeout_ms val ds with
        | (true, ds1) =>
          ⟨["idle timeout set to " ++ String.mk (natChars val) ++ " ms"],
           ds1, false, false⟩
        | (false, ds1) => ⟨["Failed to persist idle timeout."], ds1, false, false⟩

/-- Branch of handle_incoming_message for /toggledeepsleep. -/
def cmd_toggle (ds : DsState) (arg : List Char) : CmdResult :=
  if strncaseEqPfx arg ("off".data) then
    match deepsleep_manager_set_enabled false ds with
    | (true, ds1) => ⟨["deepsleep disabled"], ds1, false, false⟩
    | (false, ds1) => ⟨["Failed to disable deepsleep."], ds1, false, false⟩
  else if strncaseEqPfx arg ("on".data) then
    if deepsleep_manager_get_interval_ms ds = 0 then
      ⟨["No interval set. Use /setdeepsleepduration <ms> first."], ds, false, false⟩
    else
      match deepsleep_manager_set_enabled true ds with
      | (true, ds1) =>
        ⟨["deepsleep enabled (interval: " ++
            String.mk (natChars (deepsleep_manager_get_interval_ms ds)) ++ " ms)"],
         ds1, false, false⟩
      | (false, ds1) => ⟨["Failed to enable deepsleep."], ds1, false, false⟩
  else ⟨["Usage: /toggledeepsleep on|off"], ds, false, false⟩

/-- Branch of handle_incoming_message for /getdeepsleepstatus. -/
def cmd_status (ds : DsState) : CmdResult :=
  if deepsleep_manager_get_interval_ms ds = 0 then
    ⟨["deepsleep interval not set; enabled=" ++
        (if deepsleep_manager_is_enabled ds then "1" else "0") ++
        "; idle timeout=" ++
        String.mk (natChars (deepsleep_manager_get_idle_timeout_ms ds)) ++ " ms"],
     ds, false, false⟩
  else
    ⟨["deepsleep interval=" ++
        String.mk (natChars (deepsleep_manager_get_interval_ms ds)) ++
        " ms; enabled=" ++ (if deepsleep_manager_is_enabled ds then "1" else "0") ++
        "; idle timeout=" ++
        String.mk (natChars (deepsleep_manager_get_idle_timeout_ms ds)) ++ " ms"],
     ds, false, false⟩

/-- Branch of handle_incoming_message for /deepsleep. -/
def cmd_deepsleep (ds : DsState) : CmdResult :=
  if deepsleep_manager_get_interval_ms ds = 0 then
    ⟨["No deepsleep interval set. Use /setdeepsleepduration <ms> first."],
     ds, false, false⟩
  else if deepsleep_manager_is_enabled ds = false then
    ⟨["Deep-sleep is currently disabled. Use /toggledeepsleep on to enable, or use /deepsleep to force immediate sleep after enabling."],
     ds, false, false⟩
  else
    if deepsleep_manager_force_sleep ds then
      ⟨["Entering deep sleep for " ++
          String.mk (natChars (deepsleep_manager_get_interval_ms ds)) ++ " ms"],
       ds, true, false⟩
    else
      ⟨["Entering deep sleep for " ++
          String.mk (natChars (deepsleep_manager_get_interval_ms ds)) ++ " ms",
        "Failed to force deep sleep (check enabled flag and interval)"],
       ds, false, false⟩

/-- handle_incoming_message from telegram.c: null text is ignored;
non-command text goes to the registered handler when present and is
otherwise answered with a fixed reply; slash commands are matched by
case-insensitive prefix in source order, with their argument taken after
skipping spaces. -/
def handle_incoming_message (ds : DsState) (hasHandler : Bool) (chat_id : Int)
    (text : Option String) : CmdResult :=
  match text with
  | none => ⟨[], ds, false, false⟩
  | some t =>
    if (t.data.head? = some '/') = false then
      if hasHandler then ⟨[], ds, false, true⟩
      else ⟨["Not a valid command"], ds, false, false⟩
    else if strncaseEqPfx t.data ("/setdeepsleepduration".data) then
      cmd_set_duration ds
        ((t.data.drop ("/setdeepsleepduration".data.length)).dropWhile (fun c => c = ' '))
    else if strncaseEqPfx t.data ("/setdeepsleepdelay".data) then
      cmd_set_delay ds
        ((t.data.drop ("/setdeepsleepdelay".data.length)).dropWhile (fun c => c = ' '))
    else if strncaseEqPfx t.data ("/toggledeepsleep".data) then
      cmd_toggle ds
        ((t.data.drop ("/toggledeepsleep".data.length)).dropWhile (fun c => c = ' '))
    else if strncaseEqPfx t.data ("/getdeepsleepstatus".data) then
      cmd_status ds
    else if strncaseEqPfx t.data ("/getid".data) then
      ⟨[String.mk (intChars chat_id)], ds, false, false⟩
    else if strncaseEqPfx t.data ("/deepsleep".data) then
      cmd_deepsleep ds
    else ⟨["Unknown command"], ds, false, false⟩

/-- Fixture policy-store state for the dispatcher claims: interval 5000,
idle timeout 2000, enabled, with sleep.txt in sync. -/
def ds9 : DsState := ⟨5000, 2000, true, some ("5000\n2000\n1\n".data), true⟩

/-- Fixture with unknown trailing content after the three known lines. -/
def ds8 : DsState := ⟨5000, 2000, true, some ("5000\n2000\n1\ncustom-tail\n".data), true⟩

/-! ### Update Controller (components/ota_manager/ota_manager.c)

Telemetry payloads published via mqtt_publish_telemetry are modelled as
an event type mirroring the JSON strings of the source; the external
library calls (esp_http_client, esp_ota, mbedTLS, NVS) are abstracted by
an environment record giving their observable results. -/

inductive Telem where
  | downloading
  | downloaded
  | verified
  | failed (err : String)
  | updated (title version : String)
deriving Repr, DecidableEq

/-- Persisted firmware identity: NVS namespace "ota", keys version,
title and confirmed. -/
structure OtaNvs where
  version : Option String
  title : Option String
  confirmed : Option Int
deriving Repr, DecidableEq

/-- Environment of one run of ota_manager_download_and_apply_by_title. -/
structure OtaEnv where
  token : Option String
  client_init_ok : Bool
  partition_ok : Bool
  md_setup_ok : Bool
  http_open_ok : Bool
  ota_begin_ok : Bool
  chunks : List (List Nat)
  read_error : Bool
  ota_write_ok : Nat → Bool
  sha256_hex : List Nat → String

  ota_end_ok : Bool
  set_boot_ok : Bool
  nvs_open_ok : Bool

/-- Streaming download loop: esp_http_client_read delivers the chunks in
order (an empty chunk is a read returning 0, which ends the while loop);
each chunk is written to the OTA slot before being folded into the
digest. Returns the bytes written in order, whether an esp_ota_write
failed, and whether the loop ended on a zero-length read before the
chunk list was exhausted. -/
def downloadLoop (writeOk : Nat → Bool) : List (List Nat) → Nat → List Nat × Bool × Bool
  | [], _ => ([], false, false)
  | c :: rest, i =>
    if c.isEmpty then ([], false, true)
    else if writeOk i then
      (c ++ (downloadLoop writeOk rest (i + 1)).1,
       (downloadLoop writeOk rest (i + 1)).2.1,
       (downloadLoop writeOk rest (i + 1)).2.2)
    else ([], true, false)

/-- Observable outcome of ota_manager_download_and_apply_by_title. -/
structure OtaResult where
  telemetry : List Telem
  set_boot_called : Bool
  nvs : OtaNvs
  restarted : Bool
  ret : Bool
  digest_used : Bool
deriving Repr, DecidableEq

/-- Apply phase: esp_ota_end, esp_ota_set_boot_partition, NVS persistence
of version/title/confirmed=0, the UPDATED telemetry, and the
unconditional esp_restart. -/
def ota_apply_phase (env : OtaEnv) (nvs : OtaNvs) (title version : String)
    (tele : List Telem) (digest : Bool) : OtaResult :=
  if env.ota_end_ok = false then
    ⟨tele ++ [.failed "ota_end_failed"], false, nvs, false, false, digest⟩
  else if env.set_boot_ok = false then
    ⟨tele ++ [.failed "set_boot_failed"], true, nvs, false, false, digest⟩
  else
    ⟨tele ++ [.updated title version], true,
     (if env.nvs_open_ok then ⟨some version, some title, some 0⟩ else nvs),
     true, true, digest⟩

/-- Verify phase: when a digest was folded (md_info non-null), the
computed hex digest is compared case-insensitively (strcasecmp) against
the expected checksum; a mismatch aborts before the apply phase. -/
def ota_verify_phase (env : OtaEnv) (nvs : OtaNvs) (title version : String)
    (expected_checksum : Option String) (digest : Bool) (streamed : List Nat) : OtaResult :=
  if digest then
    match expected_checksum with
    | some ec =>
      if strcaseEq ec (env.sha256_hex streamed) = false then
        ⟨[.downloading, .downloaded, .failed "checksum_mismatch"], false, nvs, false, false, true⟩
      else
        ota_apply_phase env nvs title version [.downloading, .downloaded, .verified] true
    | none =>
      ota_apply_phase env nvs title version [.downloading, .downloaded, .verified] true
  else
    ota_apply_phase env nvs title version [.downloading, .downloaded] false

/-- Download phase: runs the read/write loop; a write error or a negative
terminating read aborts silently, a completed download of zero total
bytes is the hard empty_download failure, otherwise DOWNLOADED is
published and verification begins. -/
def ota_download_phase (env : OtaEnv) (nvs : OtaNvs) (title version : String)
    (expected_checksum : Option String) (digest : Bool) : OtaResult :=
  if (downloadLoop env.ota_write_ok env.chunks 0).2.1 = true then
    ⟨[.downloading], false, nvs, false, false, digest⟩
  else if (downloadLoop env.ota_write_ok env.chunks 0).2.2 = false ∧ env.read_error = true then
    ⟨[.downloading], false, nvs, false, false, digest⟩
  else if (downloadLoop env.ota_write_ok env.chunks 0).1.length = 0 then
    ⟨[.downloading, .failed "empty_download"], false, nvs, false, false, digest⟩
  else
    ota_verify_phase env nvs title version expected_checksum digest
      (downloadLoop env.ota_write_ok env.chunks 0).1

/-- Open phase: DOWNLOADING has been published; esp_http_client_open and
esp_ota_begin failures abort before any byte is read. -/
def ota_open_phase (env : OtaEnv) (nvs : OtaNvs) (title version : String)
    (expected_checksum : Option String) (digest : Bool) : OtaResult :=
  if env.http_open_ok = false then ⟨[.downloading], false, nvs, false, false, digest⟩
  else if env.ota_begin_ok = false then ⟨[.downloading], false, nvs, false, false, digest⟩
  else ota_download_phase env nvs title version expected_checksum digest

/-- ota_manager_download_and_apply_by_title: argument and token checks,
client and partition setup, digest preparation (md_info is non-null
exactly when a checksum is supplied together with the exact algorithm
string "SHA256" and mbedtls_md_setup succeeds), then the phases above. -/
def ota_manager_download_and_apply_by_title (env : OtaEnv) (nvs : OtaNvs)
    (tb_base_url title version expected_checksum checksum_algo : Option String) : OtaResult :=
  if tb_base_url.isNone ∨ title.isNone ∨ version.isNone then
    ⟨[], false, nvs, false, false, false⟩
  else if env.token.isNone then ⟨[], false, nvs, false, false, false⟩
  else if env.client_init_ok = false then ⟨[], false, nvs, false, false, false⟩
  else if env.partition_ok = false then ⟨[], false, nvs, false, false, false⟩
  else
    ota_open_phase env nvs (title.getD "") (version.getD "") expected_checksum
      (expected_checksum.isSome && (checksum_algo == some "SHA256") && env.md_setup_ok)

/-! ### Attribute-driven FOTA admission (ota_manager.c)

Cloud attribute pushes are JSON; the payload is modelled as a small JSON
value type. jnum carries the "%.15g" rendering the source would produce
for the numeric value (floating-point formatting itself is abstracted). -/

inductive JVal where
  | jstr (s : String)
  | jnum (rendered : String)
  | jobj (fields : List (String × JVal))
  | jother
deriving Repr, BEq

/-- cJSON_GetObjectItemCaseSensitive: first field with exactly this name. -/
def jGetItem (v : JVal) (k : String) : Option JVal :=
  match v with
  | .jobj fs => fs.lookup k
  | _ => none

def jIsString : Option JVal → Bool
  | some (.jstr _) => true
  | _ => false

def jIsNumber : Option JVal → Bool
  | some (.jnum _) => true
  | _ => false

/-- cJSON_HasObjectItem delegates to the case-insensitive lookup. -/
def jHasItemCI (v : JVal) (k : String) : Bool :=
  match v with
  | .jobj fs => fs.any fun p => strcaseEq p.1 k
  | _ => false

def jStrVal : Option JVal → Option String
  | some (.jstr s) => some s
  | _ => none

/-- Payload selection in ota_manager_handle_attribute_update: prefer the
"data" object, then the "shared" object, else the root object. -/
def select_fota_payload (root : JVal) : JVal :=
  match jGetItem root "data" with
  | some (.jobj fs) => .jobj fs
  | _ =>
    match jGetItem root "shared" with
    | some (.jobj fs) => .jobj fs
    | _ => root

/-- Requested version in the title/version branch: a string value, or the
"%.15g" rendering of a numeric value, else NULL. -/
def fota_requested_version (payload : JVal) : Option String :=
  match jGetItem payload "fw_version" with
  | some (.jstr s) => some s
  | some (.jnum r) => some r
  | _ => none

/-- ThingsBoard base URL: the tb_base_url attribute when it is a string,
else the built-in default. -/
def fota_tb_host (payload : JVal) : String :=
  match jGetItem payload "tb_base_url" with
  | some (.jstr s) => s
  | _ => "https://demo.thingsboard.io"

def fota_title (payload : JVal) : String :=
  (jStrVal (jGetItem payload "fw_title")).getD ""

/-- Pending OTA slot s_pending (single-slot queue). -/
structure PendingOta where
  tb_base_url : String
  title : String
  version : String
  checksum : String
  algo : String
deriving Repr, BEq

/-- Environment of the attribute-handling path. -/
structure AttrEnv where
  ota : OtaEnv
  nvs_ro_ok : Bool
  nvs_rw_ok : Bool
  preflight_client_ok : Bool
  preflight_http_ok : Bool
  https_ota_ok : Bool

/-- Observable outcome of ota_manager_handle_attribute_update. -/
structure AttrResult where
  nvs : OtaNvs
  pending : Option PendingOta
  preflightHttp : Bool
  downloadAttempted : Bool
  restarted : Bool
  retryScheduled : Bool
deriving Repr, BEq

/-- ota_manager_thingsboard_preflight: argument and token checks, then a
HEAD request. First component: the HTTP request was performed; second:
the overall verdict (2xx-3xx status). -/
def ota_manager_thingsboard_preflight (env : AttrEnv)
    (tb title version : Option String) : Bool × Bool :=
  if tb.isNone ∨ title.isNone ∨ version.isNone then (false, false)
  else if env.ota.token.isNone then (false, false)
  else if env.preflight_client_ok = false then (false, false)
  else (true, env.preflight_http_ok)

/-- Result of ota_manager_apply_fota_from_attributes. -/
structure FotaResult where
  nvs : OtaNvs
  downloadAttempted : Bool
  restarted : Bool
  ret : Bool
deriving Repr, BEq

/-- ota_manager_apply_fota_from_attributes (fw_url delivery): required
typed fields, version gate against the NVS record (skipped when the
persisted version is absent or empty, or when nvs_open fails), then the
esp_https_ota download; on success only the version key is persisted
before the restart. -/
def ota_manager_apply_fota_from_attributes (env : AttrEnv) (nvs : OtaNvs)
    (root : JVal) : FotaResult :=
  if (jIsString (jGetItem root "fw_title") && jIsString (jGetItem root "fw_version") &&
      jIsNumber (jGetItem root "fw_size") && jIsString (jGetItem root "fw_checksum") &&
      jIsString (jGetItem root "fw_checksum_algorithm") &&
      jIsString (jGetItem root "fw_url")) = false then
    ⟨nvs, false, false, false⟩
  else if ((if env.nvs_rw_ok then nvs.version.getD "" else "") != "") &&
      ((if env.nvs_rw_ok then nvs.version.getD "" else "") ==
        (jStrVal (jGetItem root "fw_version")).getD "") then
    ⟨nvs, false, false, false⟩
  else if env.https_ota_ok then
    ⟨(if env.nvs_rw_ok then
        { nvs with version := some ((jStrVal (jGetItem root "fw_version")).getD "") }
      else nvs), true, true, true⟩
  else ⟨nvs, true, false, false⟩

/-- Title/version branch of ota_manager_handle_attribute_update: type
check on fw_title and fw_version, the defensive NVS version gate, then
preflight; a failed preflight stores the pending slot and schedules a
retry, a successful one starts the download. -/
def handle_title_branch (env : AttrEnv) (nvs : OtaNvs) (pending0 : Option PendingOta)
    (payload : JVal) : AttrResult :=
  if jIsString (jGetItem payload "fw_title") = false ∨
      (jGetItem payload "fw_version").isNone = true then
    ⟨nvs, pending0, false, false, false, false⟩
  else if (match fota_requested_version payload with
           | some v =>
             env.nvs_ro_ok &&
               (match nvs.version with
                | some nv => (nv != "") && (nv == v)
                | none => false)
           | none => false) = true then
    ⟨nvs, pending0, false, false, false, false⟩
  else if (ota_manager_thingsboard_preflight env (some (fota_tb_host payload))
      (some (fota_title payload)) (fota_requested_version payload)).2 = false then
    ⟨nvs,
     some ⟨fota_tb_host payload, fota_title payload,
           (fota_requested_version payload).getD "",
           (jStrVal (jGetItem payload "fw_checksum")).getD "",
           (jStrVal (jGetItem payload "fw_checksum_algorithm")).getD ""⟩,
     (ota_manager_thingsboard_preflight env (some (fota_tb_host payload))
       (some (fota_title payload)) (fota_requested_version payload)).1,
     false, false, true⟩
  else
    ⟨(ota_manager_download_and_apply_by_title env.ota nvs (some (fota_tb_host payload))
        (some (fota_title payload)) (fota_requested_version payload)
        (jStrVal (jGetItem payload "fw_checksum"))
        (jStrVal (jGetItem payload "fw_checksum_algorithm"))).nvs,
     pending0,
     (ota_manager_thingsboard_preflight env (some (fota_tb_host payload))
       (some (fota_title payload)) (fota_requested_version payload)).1,
     true,
     (ota_manager_download_and_apply_by_title env.ota nvs (some (fota_tb_host payload))
        (some (fota_title payload)) (fota_requested_version payload)
        (jStrVal (jGetItem payload "fw_checksum"))
        (jStrVal (jGetItem payload "fw_checksum_algorithm"))).restarted,
     false⟩

/-- Dispatch over a selected payload: the five required FOTA attribute
keys must all be present (case-insensitive existence check), then the
fw_url form or the title/version form is taken. -/
def handle_payload (env : AttrEnv) (nvs : OtaNvs) (pending0 : Option PendingOta)
    (payload : JVal) : AttrResult :=
  if (jHasItemCI payload "fw_title" && jHasItemCI payload "fw_version" &&
      jHasItemCI payload "fw_size" && jHasItemCI payload "fw_checksum" &&
      jHasItemCI payload "fw_checksum_algorithm") = false then
    ⟨nvs, pending0, false, false, false, false⟩
  else if jHasItemCI payload "fw_url" then
    ⟨(ota_manager_apply_fota_from_attributes env nvs payload).nvs, pending0, false,
     (ota_manager_apply_fota_from_attributes env nvs payload).downloadAttempted,
     (ota_manager_apply_fota_from_attributes env nvs payload).restarted, false⟩
  else handle_title_branch env nvs pending0 payload

/-- ota_manager_handle_attribute_update: none models a NULL payload or a
JSON parse failure; otherwise the payload object is selected and
dispatched. -/
def ota_manager_handle_attribute_update (env : AttrEnv) (nvs : OtaNvs)
    (pending0 : Option PendingOta) (json_payload : Option JVal) : AttrResult :=
  match json_payload with
  | none => ⟨nvs, pending0, false, false, false, false⟩
  | some root => handle_payload env nvs pending0 (select_fota_payload root)

/-! ### Boot-time confirmation (Update Controller contract) -/

/-- Publications of the boot-time confirmation: client attributes and
telemetry events. -/
structure BootPub where
  attrs : List (String × String)
  telemetry : List Telem
deriving Repr, DecidableEq

/-- Modelled from the spec: the boot-time confirmation routine of the
Update Controller. The code that consumes the persisted confirmed flag
lives in the MQTT manager component, whose implementation is not under
src/ (only its header is); the repository README states that after an
apply the device persists version/title with confirmed=0, and on the
next boot publishes the persisted identity as client attributes
(current_fw_title, current_fw_version), publishes a one-time
confirmation telemetry, and sets confirmed=1 so the same update is not
confirmed repeatedly. -/
def boot_confirmation (nvs : OtaNvs) : BootPub × OtaNvs :=
  if nvs.confirmed = some 0 then
    (⟨[("current_fw_title", nvs.title.getD ""), ("current_fw_version", nvs.version.getD "")],
      [Telem.updated (nvs.title.getD "") (nvs.version.getD "")]⟩,
     { nvs with confirmed := some 1 })
  else (⟨[], []⟩, nvs)

/-- Fixture NVS record: an older firmware identity, already confirmed. -/
def otaNvs0 : OtaNvs := ⟨some "0.9", some "sensor-fw", some 1⟩

/-- Fixture environment for the checksum-mismatch witness: one 3-byte
chunk, digest "aa". -/
def otaEnvC1 : OtaEnv :=
  ⟨some "tok", true, true, true, true, true, [[1, 2, 3]], false,
   fun _ => true, fun _ => "aa", true, true, true⟩

/-- Fixture environment for the empty-download witness: no chunks. -/
def otaEnvC5 : OtaEnv :=
  ⟨some "tok", true, true, true, true, true, [], false,
   fun _ => true, fun _ => "aa", true, true, true⟩

/-- Fixture attribute environment: everything reachable and working. -/
def attrEnvOk : AttrEnv := ⟨otaEnvC1, true, true, true, true, true⟩

/-- Fixture push for the C2 counterexample: all five required fields, no
fw_url, fw_version the empty string. -/
def rootC2 : JVal :=
  .jobj [("fw_title", .jstr "sensor-fw"), ("fw_version", .jstr ""),
         ("fw_size", .jnum "1024"), ("fw_checksum", .jstr "aa"),
         ("fw_checksum_algorithm", .jstr "SHA256")]

/-- Fixture NVS record whose persisted version is the empty string. -/
def nvsC2 : OtaNvs := ⟨some "", none, none⟩

/-- Fixture push for the C2 witness: same shape with version "1.2.3". -/
def rootC2W : JVal :=
  .jobj [("fw_title", .jstr "sensor-fw"), ("fw_version", .jstr "1.2.3"),
         ("fw_size", .jnum "1024"), ("fw_checksum", .jstr "aa"),
         ("fw_checksum_algorithm", .jstr "SHA256")]

/-- Fixture NVS record already at version "1.2.3". -/
def nvsC2W : OtaNvs := ⟨some "1.2.3", some "sensor-fw", some 1⟩

/-! ### Lemmas about the ingestion loop -/

theorem if_lt_eq_max (a b : Int) : (if a < b then b else a) = max a b := by
  rcases le_or_lt b a with h | h
  · simp [not_lt_of_le h, max_eq_left h]
  · simp [h, max_eq_right (le_of_lt h)]

theorem process_updates_sublist (i : Bool) (c : Int) :
    ∀ (l : List Upd) (m : Int), (process_updates i c l m).1.Sublist l := by
  intro l
  induction l with
  | nil => intro m; simp [process_updates]
  | cons u rest ih =>
    intro m
    by_cases h : i = false ∧ u.uid ≤ c
    · simp only [process_updates, if_pos h]
      exact (ih m).trans (List.sublist_cons_self u rest)
    · simp only [process_updates, if_neg h]
      exact List.Sublist.cons₂ u (ih _)

theorem process_updates_ignore (c : Int) :
    ∀ (l : List Upd) (m : Int), (process_updates true c l m).1 = l := by
  intro l
  induction l with
  | nil => intro m; simp [process_updates]
  | cons u rest ih => intro m; simp [process_updates, ih]

theorem process_updates_filter (c : Int) :
    ∀ (l : List Upd) (m : Int),
      (process_updates false c l m).1 = l.filter fun u => decide (c < u.uid) := by
  intro l
  induction l with
  | nil => intro m; simp [process_updates]
  | cons u rest ih =>
    intro m
    by_cases h : u.uid ≤ c
    · simp [process_updates, h, List.filter, not_lt_of_le h, ih]
    · simp [process_updates, h, List.filter, lt_of_not_le h, ih]

theorem process_updates_max (i : Bool) (c : Int) :
    ∀ (l : List Upd) (m : Int),
      (process_updates i c l m).2 =
        ((process_updates i c l m).1.map Upd.uid).foldl max m := by
  intro l
  induction l with
  | nil => intro m; simp [process_updates]
  | cons u rest ih =>
    intro m
    by_cases h : i = false ∧ u.uid ≤ c
    · simp only [process_updates, if_pos h]; exact ih m
    · simp only [process_updates, if_neg h, List.map_cons, List.foldl_cons]
      rw [← if_lt_eq_max m u.uid]
      exact ih _

theorem le_foldl_max (l : List Int) : ∀ m : Int, m ≤ l.foldl max m := by
  induction l with
  | nil => intro m; simp
  | cons a rest ih =>
    intro m
    exact le_trans (le_max_left m a) (ih (max m a))

theorem process_updates_mem_gt (c : Int) (l : List Upd) (m : Int) :
    ∀ x ∈ (process_updates false c l m).1, c < x.uid := by
  intro x hx
  rw [process_updates_filter] at hx
  exact of_decide_eq_true (List.mem_filter.mp hx).2

theorem tf_batch (u : List Upd) (i : Bool) (c : Int) (f : Nat) :
    (telegram_finish u i c f).batch = u := by
  unfold telegram_finish; split <;> rfl

theorem tf_dispatched (u : List Upd) (i : Bool) (c : Int) (f : Nat) :
    (telegram_finish u i c f).dispatched = (process_updates i c u c).1 := by
  unfold telegram_finish; split <;> rfl

theorem tf_fallback (u : List Upd) (i : Bool) (c : Int) (f : Nat) :
    (telegram_finish u i c f).fallbackRequests = f := by
  unfold telegram_finish; split <;> rfl

theorem cycleInv_finish (u : List Upd) (i : Bool) (c : Int) (f : Nat) :
    CycleInv c (telegram_finish u i c f) := by
  have hmax := process_updates_max i c u c
  have hsub := process_updates_sublist i c u c
  unfold telegram_finish CycleInv
  by_cases hc : c < (process_updates i c u c).2
  · simp only [if_pos hc]
    refine ⟨?_, hsub, hmax, le_of_lt hc, by simp [hc]⟩
    intro hi x hx
    subst hi
    exact process_updates_mem_gt c u c x hx
  · have heq : (process_updates i c u c).2 = c :=
      le_antisymm (not_lt.mp hc) (hmax ▸ le_foldl_max _ c)
    simp only [if_neg hc]
    refine ⟨?_, hsub, (hmax.symm.trans heq).symm, le_refl c, by simp⟩
    intro hi x hx
    subst hi
    exact process_updates_mem_gt c u c x hx

theorem cycleInv_base (c : Int) (k : Nat) :
    CycleInv c ⟨[], [], c, false, k, false⟩ := by
  refine ⟨fun _ x hx => absurd hx (List.not_mem_nil x), List.Sublist.refl [],
    by simp, le_refl c, by simp⟩

theorem cycle_zero_none (env : TgEnv) (hno : env.noOffsetResponse = none) :
    telegram_cycle env 0 = ⟨[], [], 0, false, 0, false⟩ := by
  unfold telegram_cycle
  rw [if_neg (fun h : (0 : Int) ≠ 0 => h rfl), hno]

theorem cycle_zero_some (env : TgEnv) (resp : List Upd)
    (hno : env.noOffsetResponse = some resp) :
    telegram_cycle env 0 = telegram_finish (resp.take MAX_UPDATES) false 0 0 := by
  unfold telegram_cycle
  rw [if_neg (fun h : (0 : Int) ≠ 0 => h rfl), hno]
  unfold telegram_cycle_resp
  exact if_neg (fun hand => hand.2 rfl)

theorem cycle_off_none (env : TgEnv) (c : Int) (h0 : c ≠ 0)
    (hoff : env.offsetResponse = none) :
    telegram_cycle env c = ⟨[], [], c, false, 0, false⟩ := by
  unfold telegram_cycle
  rw [if_pos h0, hoff]

theorem cycle_off_nonempty (env : TgEnv) (c : Int) (resp : List Upd) (h0 : c ≠ 0)
    (hoff : env.offsetResponse = some resp)
    (hne : (resp.take MAX_UPDATES).isEmpty = false) :
    telegram_cycle env c = telegram_finish (resp.take MAX_UPDATES) false c 0 := by
  unfold telegram_cycle
  rw [if_pos h0, hoff]
  unfold telegram_cycle_resp
  exact if_neg (fun hand => by rw [hne] at hand; exact Bool.false_ne_true hand.1)

theorem cycle_fb_none (env : TgEnv) (c : Int) (resp : List Upd) (h0 : c ≠ 0)
    (hoff : env.offsetResponse = some resp)
    (he : (resp.take MAX_UPDATES).isEmpty = true)
    (hfb : env.fallbackResponse = none) :
    telegram_cycle env c = ⟨[], [], c, false, 1, false⟩ := by
  have hcond : (resp.take MAX_UPDATES).isEmpty = true ∧ c ≠ 0 := ⟨he, h0⟩
  have h1 : telegram_cycle env c = telegram_cycle_resp env c resp := by
    unfold telegram_cycle
    rw [if_pos h0, hoff]
  rw [h1]
  unfold telegram_cycle_resp
  rw [if_pos hcond]
  unfold telegram_fallback
  rw [hfb]

theorem cycle_fb_some (env : TgEnv) (c : Int) (resp l : List Upd) (h0 : c ≠ 0)
    (hoff : env.offsetResponse = some resp)
    (he : (resp.take MAX_UPDATES).isEmpty = true)
    (hfb : env.fallbackResponse = some l) :
    telegram_cycle env c =
      telegram_finish (l.take MAX_UPDATES)
        (if (l.take MAX_UPDATES).length > 0 then
           !((l.take MAX_UPDATES).any fun u => u.uid == c)
         else false) c 1 := by
  have hcond : (resp.take MAX_UPDATES).isEmpty = true ∧ c ≠ 0 := ⟨he, h0⟩
  have h1 : telegram_cycle env c = telegram_cycle_resp env c resp := by
    unfold telegram_cycle
    rw [if_pos h0, hoff]
  rw [h1]
  unfold telegram_cycle_resp
  rw [if_pos hcond]
  unfold telegram_fallback
  rw [hfb]

/-- C4: in every poll cycle of telegram_task, a message is dispatched only
when its update id strictly exceeds the cursor the cycle started from
(unless the stale-cursor recovery mode is active for that batch); messages
are dispatched in the server's array order without re-sorting; and the
cursor is updated, to the maximum id seen during dispatch, and persisted
only when that maximum strictly exceeds the old cursor, so the cursor is
monotonically non-decreasing. -/
theorem C4_dispatch_and_cursor_invariants (env : TgEnv) (cursor : Int) :
    CycleInv cursor (telegram_cycle env cursor) := by
  by_cases h0 : cursor = 0
  · subst h0
    cases hno : env.noOffsetResponse with
    | none => rw [cycle_zero_none env hno]; exact cycleInv_base 0 0
    | some resp => rw [cycle_zero_some env resp hno]; exact cycleInv_finish _ false 0 0
  · cases hoff : env.offsetResponse with
    | none => rw [cycle_off_none env cursor h0 hoff]; exact cycleInv_base cursor 0
    | some resp =>
      cases he : (resp.take MAX_UPDATES).isEmpty with
      | false =>
        rw [cycle_off_nonempty env cursor resp h0 hoff he]
        exact cycleInv_finish _ false cursor 0
      | true =>
        cases hfb : env.fallbackResponse with
        | none =>
          rw [cycle_fb_none env cursor resp h0 hoff he hfb]
          exact cycleInv_base cursor 1
        | some l =>
          rw [cycle_fb_some env cursor resp l h0 hoff he hfb]
          exact cycleInv_finish _ _ cursor 1

set_option maxRecDepth 8000 in
/-- C4 witness: a concrete cycle (cursor 100, offset response with ids
101..170) on which the invariants are not vacuous: 64 messages are
dispatched, each above the cursor. -/
theorem C4_witness :
    CycleInv 100 (telegram_cycle tgEnvC 100) ∧
      (telegram_cycle tgEnvC 100).dispatched.length = 64 ∧
      (telegram_cycle tgEnvC 100).staleCursorMode = false :=
  ⟨C4_dispatch_and_cursor_invariants tgEnvC 100, by decide, by decide⟩

/-- C3: when the offset-based getUpdates request of a cycle returns zero
messages, exactly one fallback request without an offset is issued; if the
persisted cursor id is absent from the fallback batch every returned
message is dispatched (the cursor check is suspended for that batch), and
if it is present only messages with id strictly greater than the cursor
are dispatched; the cursor then becomes the maximum dispatched id (seeded
with the old cursor). -/
theorem C3_stale_cursor_fallback (env : TgEnv) (cursor : Int) (l : List Upd)
    (h0 : cursor ≠ 0) (hoff : env.offsetResponse = some [])
    (hfb : env.fallbackResponse = some l) (hlen : l.length ≤ MAX_UPDATES) :
    (telegram_cycle env cursor).fallbackRequests = 1 ∧
    (cursor ∉ l.map Upd.uid → (telegram_cycle env cursor).dispatched = l) ∧
    (cursor ∈ l.map Upd.uid →
      (telegram_cycle env cursor).dispatched = l.filter fun u => decide (cursor < u.uid)) ∧
    (telegram_cycle env cursor).newCursor =
      ((telegram_cycle env cursor).dispatched.map Upd.uid).foldl max cursor := by
  have htake : l.take MAX_UPDATES = l := List.take_of_length_le hlen
  have hcyc : telegram_cycle env cursor =
      telegram_finish l
        (if l.length > 0 then !(l.any fun u => u.uid == cursor) else false) cursor 1 := by
    rw [cycle_fb_some env cursor [] l h0 hoff rfl hfb, htake]
  refine ⟨?_, ?_, ?_, ?_⟩
  · rw [hcyc, tf_fallback]
  · intro hmem
    have hany : (l.any fun u => u.uid == cursor) = false := by
      rw [List.any_eq_false]
      intro u hu
      simp only [beq_iff_eq]
      intro heq
      exact hmem (heq ▸ List.mem_map_of_mem Upd.uid hu)
    cases l with
    | nil =>
      rw [hcyc]
      simp only [List.length_nil, gt_iff_lt, lt_irrefl, if_false]
      rw [tf_dispatched]
      rfl
    | cons a t =>
      rw [hcyc]
      rw [if_pos (by simp), hany, Bool.not_false, tf_dispatched, process_updates_ignore]
  · intro hmem
    obtain ⟨u, hu, huid⟩ := List.mem_map.mp hmem
    have hany : (l.any fun u => u.uid == cursor) = true :=
      List.any_eq_true.mpr ⟨u, hu, beq_iff_eq.mpr huid⟩
    have hlpos : l.length > 0 := by
      cases l with
      | nil => exact absurd hu (List.not_mem_nil u)
      | cons a t => simp
    rw [hcyc]
    rw [if_pos hlpos, hany, Bool.not_true, tf_dispatched, process_updates_filter]
  · rw [hcyc]
    exact (cycleInv_finish l _ cursor 1).2.2.1

/-- C3 witness: scenario A (cursor 100, fallback ids [98,99,100,101]
containing 100: only 101 dispatched, cursor becomes 101) and scenario B
(cursor 50, fallback ids [120,121] lacking 50: both dispatched in order,
cursor becomes 121), each with exactly one fallback request. -/
theorem C3_witness :
    (telegram_cycle tgEnvA 100).fallbackRequests = 1 ∧
    (telegram_cycle tgEnvA 100).dispatched = [⟨101, none, 7⟩] ∧
    (telegram_cycle tgEnvA 100).newCursor = 101 ∧
    (telegram_cycle tgEnvB 50).fallbackRequests = 1 ∧
    (telegram_cycle tgEnvB 50).dispatched = [⟨120, none, 7⟩, ⟨121, none, 7⟩] ∧
    (telegram_cycle tgEnvB 50).newCursor = 121 := by
  have hA := C3_stale_cursor_fallback tgEnvA 100 _ (by decide) rfl rfl (by decide)
  have hB := C3_stale_cursor_fallback tgEnvB 50 _ (by decide) rfl rfl (by decide)
  have hAd : (telegram_cycle tgEnvA 100).dispatched = [⟨101, none, 7⟩] :=
    (hA.2.2.1 (by decide)).trans (by decide)
  have hBd : (telegram_cycle tgEnvB 50).dispatched = [⟨120, none, 7⟩, ⟨121, none, 7⟩] :=
    hB.2.1 (by decide)
  refine ⟨hA.1, hAd, ?_, hB.1, hBd, ?_⟩
  · rw [hA.2.2.2, hAd]; decide
  · rw [hB.2.2.2, hBd]; decide

/-- C10: in one poll cycle, at most MAX_UPDATES = 64 update entries of a
single long-poll response are evaluated: the processed batch is exactly
the first 64 entries found in the response body, the dispatched messages
are drawn (in order) from those first 64, and any further entries of the
same response are not dispatched in that cycle. -/
theorem C10_at_most_64_updates (env : TgEnv) (cursor : Int) (resp : List Upd)
    (h0 : cursor ≠ 0) (hresp : env.offsetResponse = some resp) (hne : resp ≠ []) :
    (telegram_cycle env cursor).batch = resp.take MAX_UPDATES ∧
    (telegram_cycle env cursor).dispatched.Sublist (resp.take MAX_UPDATES) ∧
    (telegram_cycle env cursor).dispatched.length ≤ MAX_UPDATES := by
  have hie : (resp.take MAX_UPDATES).isEmpty = false := by
    cases resp with
    | nil => exact absurd rfl hne
    | cons a t => rfl
  have hcyc : telegram_cycle env cursor =
      telegram_finish (resp.take MAX_UPDATES) false cursor 0 :=
    cycle_off_nonempty env cursor resp h0 hresp hie
  have hsub : (telegram_cycle env cursor).dispatched.Sublist (resp.take MAX_UPDATES) := by
    rw [hcyc, tf_dispatched]
    exact process_updates_sublist false cursor _ cursor
  refine ⟨by rw [hcyc, tf_batch], hsub, ?_⟩
  exact le_trans hsub.length_le (List.length_take_le _ _)

set_option maxRecDepth 8000 in
/-- C10 witness: a response with 70 entries (ids 101..170) and cursor 100:
the batch is the first 64 entries, exactly 64 messages are dispatched and
the remaining 6 entries are not dispatched in this cycle. -/
theorem C10_witness :
    (telegram_cycle tgEnvC 100).batch = tgRespC.take MAX_UPDATES ∧
    (telegram_cycle tgEnvC 100).dispatched.length ≤ MAX_UPDATES ∧
    (telegram_cycle tgEnvC 100).dispatched.length = 64 ∧
    tgRespC.length = 70 := by
  have h := C10_at_most_64_updates tgEnvC 100 tgRespC (by decide) rfl (by decide)
  exact ⟨h.1, h.2.2, by decide, by decide⟩

/-! ### Lemmas about decimal rendering and line parsing -/

theorem digitChar_isDigit {d : Nat} (h : d < 10) : (digitChar d).isDigit = true := by
  interval_cases d <;> decide

theorem digitChar_toNat {d : Nat} (h : d < 10) : (digitChar d).toNat - 48 = d := by
  interval_cases d <;> decide

theorem natDigitsGo_lt : ∀ (fuel n : Nat), n ≤ fuel → ∀ d ∈ natDigitsGo fuel n, d < 10 := by
  intro fuel
  induction fuel with
  | zero =>
    intro n hn d hd
    interval_cases n
    simp only [natDigitsGo, List.mem_singleton] at hd
    omega
  | succ f ih =>
    intro n hn d hd
    by_cases h10 : n < 10
    · simp only [natDigitsGo, if_pos h10, List.mem_singleton] at hd
      omega
    · simp only [natDigitsGo, if_neg h10, List.mem_append, List.mem_singleton] at hd
      rcases hd with hd | hd
      · exact ih (n / 10) (by omega) d hd
      · omega

theorem natDigitsGo_dv : ∀ (fuel n : Nat), n ≤ fuel →
    List.foldl (fun a d => a * 10 + d) 0 (natDigitsGo fuel n) = n := by
  intro fuel
  induction fuel with
  | zero =>
    intro n hn
    interval_cases n
    rfl
  | succ f ih =>
    intro n hn
    by_cases h10 : n < 10
    · simp [natDigitsGo, if_pos h10]
    · rw [show natDigitsGo (f + 1) n = natDigitsGo f (n / 10) ++ [n % 10] from by
        simp [natDigitsGo, h10]]
      rw [List.foldl_append, ih (n / 10) (by omega)]
      simp only [List.foldl_cons, List.foldl_nil]
      omega

theorem natDigitsGo_ne_nil (fuel n : Nat) : natDigitsGo fuel n ≠ [] := by
  cases fuel with
  | zero => simp [natDigitsGo]
  | succ f => by_cases h : n < 10 <;> simp [natDigitsGo, h]

theorem natChars_digits (n : Nat) : ∀ c ∈ natChars n, c.isDigit = true := by
  intro c hc
  obtain ⟨d, hd, rfl⟩ := List.mem_map.mp hc
  exact digitChar_isDigit (natDigitsGo_lt n n le_rfl d hd)

theorem nl_not_mem_natChars (n : Nat) : '\n' ∉ natChars n := by
  intro h
  have := natChars_digits n _ h
  exact absurd this (by decide)

theorem natChars_ne_nil (n : Nat) : natChars n ≠ [] := by
  unfold natChars natDigits
  intro he
  exact natDigitsGo_ne_nil n n (List.map_eq_nil_iff.mp he)

theorem natChars_head_not (n : Nat) {c : Char} (hc : c.isDigit = false) :
    ¬ (natChars n).head? = some c := by
  intro h
  have hm : c ∈ natChars n := List.mem_of_mem_head? h
  have := natChars_digits n c hm
  rw [hc] at this
  exact Bool.false_ne_true this

theorem takeWhile_all {α : Type} {p : α → Bool} :
    ∀ {l : List α}, (∀ c ∈ l, p c = true) → l.takeWhile p = l := by
  intro l
  induction l with
  | nil => intro _; rfl
  | cons a t ih =>
    intro h
    simp only [List.takeWhile_cons, h a (List.mem_cons_self a t), if_true]
    rw [ih fun c hc => h c (List.mem_cons_of_mem a hc)]

theorem digitsVal_digitChars : ∀ (ds : List Nat), (∀ d ∈ ds, d < 10) → ∀ (a : Nat),
    List.foldl (fun x c => x * 10 + (c.toNat - 48)) a (ds.map digitChar) =
      List.foldl (fun x d => x * 10 + d) a ds := by
  intro ds
  induction ds with
  | nil => intro _ a; rfl
  | cons d t ih =>
    intro h a
    simp only [List.map_cons, List.foldl_cons]
    rw [digitChar_toNat (h d (List.mem_cons_self d t))]
    exact ih (fun x hx => h x (List.mem_cons_of_mem d hx)) _

theorem digitsVal_natChars (n : Nat) : digitsVal (natChars n) = n := by
  unfold digitsVal natChars natDigits
  rw [digitsVal_digitChars _ (natDigitsGo_lt n n le_rfl), natDigitsGo_dv n n le_rfl]

theorem strtoull10_natChars (n : Nat) (h : n ≤ 2 ^ 64 - 1) :
    strtoull10 (natChars n) = some n := by
  unfold strtoull10
  rw [if_neg (natChars_head_not n (by decide)), if_neg (natChars_head_not n (by decide))]
  unfold strtoullCore
  rw [takeWhile_all (natChars_digits n)]
  have hie : (natChars n).isEmpty = false := by
    cases hnc : natChars n with
    | nil => exact absurd hnc (natChars_ne_nil n)
    | cons a t => rfl
  rw [if_neg (by rw [hie]; exact Bool.false_ne_true)]
  rw [digitsVal_natChars]
  have hcl : u64clamp n = n := by unfold u64clamp; omega
  show some (u64clamp n) = some n
  rw [hcl]

theorem breakAtNl_append (xs rest : List Char) (h : '\n' ∉ xs) :
    breakAtNl (xs ++ '\n' :: rest) = (xs, some rest) := by
  induction xs with
  | nil => simp [breakAtNl]
  | cons a t ih =>
    have ha : ¬ a = '\n' := fun he => h (he ▸ List.mem_cons_self a t)
    have ht : '\n' ∉ t := fun hm => h (List.mem_cons_of_mem a hm)
    simp only [List.cons_append, breakAtNl, if_neg ha, List.append_eq, ih ht]

theorem ds_num_natChars (n : Nat) (h : n ≤ 2 ^ 64 - 1) : ds_num (natChars n) = n := by
  unfold ds_num
  rw [strtoull10_natChars n h]

theorem ds_idle_natChars (n : Nat) (h : n ≤ 2 ^ 64 - 1) :
    ds_idle_of_line (natChars n) = n := by
  unfold ds_idle_of_line
  have hie : (natChars n).isEmpty = false := by
    cases hnc : natChars n with
    | nil => exact absurd hnc (natChars_ne_nil n)
    | cons a t => rfl
  rw [if_neg (by rw [hie]; exact Bool.false_ne_true), ds_num_natChars n h]

theorem ds_parse_render (i t : Nat) (e : Bool) (hi : i ≤ 2 ^ 64 - 1)
    (ht : t ≤ 2 ^ 64 - 1) :
    ds_parse (render_sleep_config i t e) = (i, t, e) := by
  have h1 : breakAtNl (render_sleep_config i t e) =
      (natChars i, some (natChars t ++ '\n' :: ((if e then ['1'] else ['0']) ++ ['\n']))) :=
    breakAtNl_append _ _ (nl_not_mem_natChars i)
  have h2 : breakAtNl (natChars t ++ '\n' :: ((if e then ['1'] else ['0']) ++ ['\n'])) =
      (natChars t, some ((if e then ['1'] else ['0']) ++ ['\n'])) :=
    breakAtNl_append _ _ (nl_not_mem_natChars t)
  have h3 : breakAtNl ((if e then ['1'] else ['0']) ++ ['\n']) =
      ((if e then ['1'] else ['0']), some []) := by
    cases e <;> decide
  have h4 : ds_flag_of_line (if e then ['1'] else ['0']) = e := by
    cases e <;> decide
  unfold ds_parse
  rw [h1]
  simp only []
  rw [h2]
  simp only []
  rw [h3]
  simp only []
  rw [ds_num_natChars i hi, ds_idle_natChars t ht, h4]

/-! ### Claims about the deep-sleep policy store and the dispatcher -/

/-- C8 counterexample: starting from a sleep.txt with unknown trailing
content "custom-tail\n" after the three known fields, the idle-timeout
field update rewrites the file to exactly the three known fields: the
trailing bytes are NOT preserved, contradicting the claim that trailing
content survives every field-update operation of the policy store. -/
theorem C8_trailing_content_lost :
    ds8.file = some (("5000\n2000\n1\ncustom-tail\n").data) ∧
    (deepsleep_manager_set_idle_timeout_ms 3000 ds8).1 = true ∧
    (deepsleep_manager_set_idle_timeout_ms 3000 ds8).2.file =
      some (("5000\n3000\n1\n").data) ∧
    (("5000\n3000\n1\n").data : List Char) ≠ ("5000\n3000\n1\ncustom-tail\n").data := by
  exact ⟨rfl, by decide, by decide, by decide⟩

/-- C8 (amended): writing a PolicyRecord and reading it back yields the
same three field values, and trailing content beyond the known fields
survives a sleep-interval update byte-for-byte; idle-timeout and
enabled-flag updates, by contrast, rewrite the file to exactly the three
known fields (persist_sleep_config), discarding trailing content. -/
theorem C8_policy_store (s : DsState) (ms : Nat) (pre rest : List Char)
    (hi : s.interval_ms ≤ 2 ^ 64 - 1) (ht : s.idle_timeout_ms ≤ 2 ^ 64 - 1)
    (hroot : s.storage_root_ok = true) (hnl : '\n' ∉ pre)
    (hfile : s.file = some (pre ++ '\n' :: rest)) :
    ds_parse (render_sleep_config s.interval_ms s.idle_timeout_ms s.enabled_flag) =
      (s.interval_ms, s.idle_timeout_ms, s.enabled_flag) ∧
    (persist_sleep_config s).2.file =
      some (render_sleep_config s.interval_ms s.idle_timeout_ms s.enabled_flag) ∧
    (deepsleep_manager_set_interval_ms ms s).2.file =
      some (natChars ms ++ '\n' :: rest) ∧
    (deepsleep_manager_set_idle_timeout_ms ms s).2.file =
      some (render_sleep_config s.interval_ms ms s.enabled_flag) ∧
    ∀ b, (deepsleep_manager_set_enabled b s).2.file =
      some (render_sleep_config s.interval_ms s.idle_timeout_ms b) := by
  have hroot' : ¬ s.storage_root_ok = false := by rw [hroot]; decide
  refine ⟨ds_parse_render _ _ _ hi ht, rfl, ?_, ?_, ?_⟩
  · unfold deepsleep_manager_set_interval_ms
    rw [if_neg hroot', hfile]
    simp only []
    rw [breakAtNl_append pre rest hnl]
  · unfold deepsleep_manager_set_idle_timeout_ms
    rw [if_neg hroot']
    rfl
  · intro b
    unfold deepsleep_manager_set_enabled
    rw [if_neg hroot']
    rfl

set_option maxRecDepth 4000 in
/-- C8 witness: on the concrete state ds8 (fields 5000/2000/enabled, file
with trailing "custom-tail\n"): the round trip returns the three fields,
and a sleep-interval update to 3333 keeps the trailing bytes intact. -/
theorem C8_witness :
    ds_parse (render_sleep_config 5000 2000 true) = (5000, 2000, true) ∧
    (deepsleep_manager_set_interval_ms 3333 ds8).2.file =
      some (("3333\n2000\n1\ncustom-tail\n").data) := by
  have h := C8_policy_store ds8 3333 (("5000").data) (("2000\n1\ncustom-tail\n").data)
    (by decide) (by decide) rfl (by decide) (by decide)
  exact ⟨h.1, h.2.2.1.trans (by decide)⟩

set_option maxRecDepth 4000 in
/-- C9: the dispatcher's range validation for /setdeepsleepduration can be
bypassed. The in-range rejection itself works: "/setdeepsleepduration 500"
draws exactly one validation-error reply and leaves the policy record
untouched (scenario F). But strtoull negates a minus-signed magnitude in
the unsigned return type, so the numeric argument -18446744073709550616 —
far outside the documented closed range [1000, 604800000] — wraps to 1000,
passes the range check, is persisted, and draws a success reply. -/
theorem C9_strtoull_wrap_bug :
    (handle_incoming_message ds9 false 1 (some "/setdeepsleepduration 500")).replies =
      ["Invalid value. Provide milliseconds between 1000 and 604800000."] ∧
    (handle_incoming_message ds9 false 1 (some "/setdeepsleepduration 500")).ds = ds9 ∧
    (handle_incoming_message ds9 false 1
        (some "/setdeepsleepduration -18446744073709550616")).replies =
      ["deepsleep interval set to 1000 ms"] ∧
    (handle_incoming_message ds9 false 1
        (some "/setdeepsleepduration -18446744073709550616")).ds.interval_ms = 1000 ∧
    (handle_incoming_message ds9 false 1
        (some "/setdeepsleepduration -18446744073709550616")).ds.file =
      some (("1000\n2000\n1\n").data) := by
  exact ⟨by decide, by decide, by decide, by decide, by decide⟩

/-! ### Lemmas about the Update Controller -/

theorem bool_tf {P : Prop} (h : true = false) : P := Bool.noConfusion h

theorem ota_main_reduce (env : OtaEnv) (nvs : OtaNvs) (tb title version : String)
    (ec algo : Option String) (tok : String) (htok : env.token = some tok)
    (hclient : env.client_init_ok = true) (hpart : env.partition_ok = true) :
    ota_manager_download_and_apply_by_title env nvs (some tb) (some title) (some version)
        ec algo =
      ota_open_phase env nvs title version ec
        (ec.isSome && (algo == some "SHA256") && env.md_setup_ok) := by
  unfold ota_manager_download_and_apply_by_title
  rw [if_neg (by simp)]
  rw [if_neg (by simp [htok])]
  rw [if_neg (by simp [hclient])]
  rw [if_neg (by simp [hpart])]
  rfl

theorem ota_open_reduce (env : OtaEnv) (nvs : OtaNvs) (title version : String)
    (ec : Option String) (d : Bool)
    (hopen : env.http_open_ok = true) (hbegin : env.ota_begin_ok = true) :
    ota_open_phase env nvs title version ec d =
      ota_download_phase env nvs title version ec d := by
  unfold ota_open_phase
  rw [if_neg (by simp [hopen]), if_neg (by simp [hbegin])]

theorem ota_download_reduce (env : OtaEnv) (nvs : OtaNvs) (title version : String)
    (ec : Option String) (d : Bool)
    (hw : (downloadLoop env.ota_write_ok env.chunks 0).2.1 = false)
    (hr : ¬ ((downloadLoop env.ota_write_ok env.chunks 0).2.2 = false ∧
            env.read_error = true))
    (hnz : (downloadLoop env.ota_write_ok env.chunks 0).1.length ≠ 0) :
    ota_download_phase env nvs title version ec d =
      ota_verify_phase env nvs title version ec d
        (downloadLoop env.ota_write_ok env.chunks 0).1 := by
  unfold ota_download_phase
  rw [if_neg (by simp [hw]), if_neg hr, if_neg hnz]

theorem ota_verify_mismatch (env : OtaEnv) (nvs : OtaNvs) (title version ec : String)
    (streamed : List Nat)
    (hdiff : strcaseEq ec (env.sha256_hex streamed) = false) :
    ota_verify_phase env nvs title version (some ec) true streamed =
      ⟨[.downloading, .downloaded, .failed "checksum_mismatch"],
       false, nvs, false, false, true⟩ := by
  unfold ota_verify_phase
  simp [hdiff]

theorem ota_verify_skip (env : OtaEnv) (nvs : OtaNvs) (title version : String)
    (ec : Option String) (streamed : List Nat) :
    ota_verify_phase env nvs title version ec false streamed =
      ota_apply_phase env nvs title version [.downloading, .downloaded] false := by
  unfold ota_verify_phase
  simp

theorem ota_apply_ok (env : OtaEnv) (nvs : OtaNvs) (title version : String)
    (tele : List Telem) (d : Bool)
    (hend : env.ota_end_ok = true) (hboot : env.set_boot_ok = true)
    (hnvs : env.nvs_open_ok = true) :
    ota_apply_phase env nvs title version tele d =
      ⟨tele ++ [.updated title version], true, ⟨some version, some title, some 0⟩,
       true, true, d⟩ := by
  unfold ota_apply_phase
  rw [if_neg (by simp [hend]), if_neg (by simp [hboot]), if_pos hnvs]

/-! ### Claims about the Update Controller -/

/-- C1: whenever a downloaded payload's computed SHA256 digest differs
case-insensitively from the expected checksum of the request, the run
aborts before boot-slot activation: esp_ota_set_boot_partition is never
called, the persisted FirmwareRecord is unchanged, the device does not
restart, and the FAILED/checksum_mismatch status is the last telemetry
event. -/
theorem C1_checksum_mismatch_aborts (env : OtaEnv) (nvs : OtaNvs)
    (tb title version ec tok : String)
    (htok : env.token = some tok)
    (hclient : env.client_init_ok = true) (hpart : env.partition_ok = true)
    (hmd : env.md_setup_ok = true)
    (hopen : env.http_open_ok = true) (hbegin : env.ota_begin_ok = true)
    (hw : (downloadLoop env.ota_write_ok env.chunks 0).2.1 = false)
    (hr : (downloadLoop env.ota_write_ok env.chunks 0).2.2 = true ∨ env.read_error = false)
    (hnz : (downloadLoop env.ota_write_ok env.chunks 0).1.length ≠ 0)
    (hdiff : strcaseEq ec
      (env.sha256_hex (downloadLoop env.ota_write_ok env.chunks 0).1) = false) :
    ota_manager_download_and_apply_by_title env nvs (some tb) (some title) (some version)
        (some ec) (some "SHA256") =
      ⟨[.downloading, .downloaded, .failed "checksum_mismatch"],
       false, nvs, false, false, true⟩ := by
  have hr' : ¬ ((downloadLoop env.ota_write_ok env.chunks 0).2.2 = false ∧
      env.read_error = true) := by
    rcases hr with h | h <;> intro hand
    · rw [h] at hand; exact bool_tf hand.1
    · rw [h] at hand; exact Bool.false_ne_true hand.2
  rw [ota_main_reduce env nvs tb title version _ _ tok htok hclient hpart]
  have hd : ((some ec).isSome && ((some "SHA256" : Option String) == some "SHA256") &&
      env.md_setup_ok) = true := by simp [hmd]
  rw [hd]
  rw [ota_open_reduce env nvs title version _ _ hopen hbegin]
  rw [ota_download_reduce env nvs title version _ _ hw hr' hnz]
  exact ota_verify_mismatch env nvs title version ec _ hdiff

/-- C1 witness: concrete run (one 3-byte chunk, digest "aa", expected
checksum "bb") ending in the checksum_mismatch abort. -/
theorem C1_witness :
    ota_manager_download_and_apply_by_title otaEnvC1 otaNvs0 (some "https://tb")
        (some "sensor-fw") (some "1.1") (some "bb") (some "SHA256") =
      ⟨[.downloading, .downloaded, .failed "checksum_mismatch"],
       false, otaNvs0, false, false, true⟩ :=
  C1_checksum_mismatch_aborts otaEnvC1 otaNvs0 "https://tb" "sensor-fw" "1.1" "bb" "tok"
    rfl rfl rfl rfl rfl rfl (by decide) (Or.inr rfl) (by decide) (by decide)

/-- C5: a download that completes with zero total bytes is a hard failure
with the dedicated empty_download tag: FAILED/empty_download is emitted,
no FirmwareRecord field is persisted, the boot slot is not activated and
the device does not restart. -/
theorem C5_empty_download_hard_failure (env : OtaEnv) (nvs : OtaNvs)
    (tb title version tok : String) (ec algo : Option String)
    (htok : env.token = some tok)
    (hclient : env.client_init_ok = true) (hpart : env.partition_ok = true)
    (hopen : env.http_open_ok = true) (hbegin : env.ota_begin_ok = true)
    (hw : (downloadLoop env.ota_write_ok env.chunks 0).2.1 = false)
    (hr : (downloadLoop env.ota_write_ok env.chunks 0).2.2 = true ∨ env.read_error = false)
    (hz : (downloadLoop env.ota_write_ok env.chunks 0).1.length = 0) :
    ota_manager_download_and_apply_by_title env nvs (some tb) (some title) (some version)
        ec algo =
      ⟨[.downloading, .failed "empty_download"], false, nvs, false, false,
       (ec.isSome && (algo == some "SHA256") && env.md_setup_ok)⟩ := by
  have hr' : ¬ ((downloadLoop env.ota_write_ok env.chunks 0).2.2 = false ∧
      env.read_error = true) := by
    rcases hr with h | h <;> intro hand
    · rw [h] at hand; exact bool_tf hand.1
    · rw [h] at hand; exact Bool.false_ne_true hand.2
  rw [ota_main_reduce env nvs tb title version _ _ tok htok hclient hpart]
  rw [ota_open_reduce env nvs title version _ _ hopen hbegin]
  unfold ota_download_phase
  rw [if_neg (by simp [hw]), if_neg hr', if_pos hz]

/-- C5 witness: concrete run with an empty chunk list. -/
theorem C5_witness :
    ota_manager_download_and_apply_by_title otaEnvC5 otaNvs0 (some "https://tb")
        (some "sensor-fw") (some "1.1") (some "bb") (some "SHA256") =
      ⟨[.downloading, .failed "empty_download"], false, otaNvs0, false, false, true⟩ :=
  C5_empty_download_hard_failure otaEnvC5 otaNvs0 "https://tb" "sensor-fw" "1.1" "tok"
    (some "bb") (some "SHA256") rfl rfl rfl rfl rfl (by decide) (Or.inr rfl) (by decide)

/-- C6: when the checksum algorithm of the request is anything other than
the exact string "SHA256", no running digest is folded during the
download and no verification is performed: the update proceeds through
apply (persisting the record with confirmed=0) and ends in the
unconditional restart, with neither a VERIFIED nor a FAILED event. -/
theorem C6_unrecognized_algo_skips_verification (env : OtaEnv) (nvs : OtaNvs)
    (tb title version tok : String) (ec algo : Option String)
    (halgo : algo ≠ some "SHA256")
    (htok : env.token = some tok)
    (hclient : env.client_init_ok = true) (hpart : env.partition_ok = true)
    (hopen : env.http_open_ok = true) (hbegin : env.ota_begin_ok = true)
    (hw : (downloadLoop env.ota_write_ok env.chunks 0).2.1 = false)
    (hr : (downloadLoop env.ota_write_ok env.chunks 0).2.2 = true ∨ env.read_error = false)
    (hnz : (downloadLoop env.ota_write_ok env.chunks 0).1.length ≠ 0)
    (hend : env.ota_end_ok = true) (hboot : env.set_boot_ok = true)
    (hnvs : env.nvs_open_ok = true) :
    ota_manager_download_and_apply_by_title env nvs (some tb) (some title) (some version)
        ec algo =
      ⟨[.downloading, .downloaded, .updated title version], true,
       ⟨some version, some title, some 0⟩, true, true, false⟩ := by
  have hr' : ¬ ((downloadLoop env.ota_write_ok env.chunks 0).2.2 = false ∧
      env.read_error = true) := by
    rcases hr with h | h <;> intro hand
    · rw [h] at hand; exact bool_tf hand.1
    · rw [h] at hand; exact Bool.false_ne_true hand.2
  have hb : (algo == some "SHA256") = false := beq_eq_false_iff_ne.mpr halgo
  have hd : (ec.isSome && (algo == some "SHA256") && env.md_setup_ok) = false := by
    rw [hb]
    simp
  rw [ota_main_reduce env nvs tb title version _ _ tok htok hclient hpart]
  rw [hd]
  rw [ota_open_reduce env nvs title version _ _ hopen hbegin]
  rw [ota_download_reduce env nvs title version _ _ hw hr' hnz]
  rw [ota_verify_skip]
  exact ota_apply_ok env nvs title version _ false hend hboot hnvs

/-- C6 witness: algorithm "MD5" on an otherwise successful run: no digest,
no verification, apply and restart. -/
theorem C6_witness :
    ota_manager_download_and_apply_by_title otaEnvC1 otaNvs0 (some "https://tb")
        (some "sensor-fw") (some "1.1") (some "bb") (some "MD5") =
      ⟨[.downloading, .downloaded, .updated "sensor-fw" "1.1"], true,
       ⟨some "1.1", some "sensor-fw", some 0⟩, true, true, false⟩ :=
  C6_unrecognized_algo_skips_verification otaEnvC1 otaNvs0 "https://tb" "sensor-fw" "1.1"
    "tok" (some "bb") (some "MD5") (by decide) rfl rfl rfl rfl rfl (by decide)
    (Or.inr rfl) (by decide) rfl rfl rfl

/-- C7: starting from a record persisted by a successful apply (confirmed
equal to 0, i.e. confirmed=false), the boot-time confirmation publishes
the identity attribute pair and exactly one confirmation telemetry event
and sets confirmed to 1; running it again — or starting from an
already-confirmed record — publishes nothing and leaves the record
unchanged, so the confirmation happens exactly once per applied
version. -/
theorem C7_boot_confirmation_once (nvs : OtaNvs) (h : nvs.confirmed = some 0) :
    (boot_confirmation nvs).1.attrs =
      [("current_fw_title", nvs.title.getD ""), ("current_fw_version", nvs.version.getD "")] ∧
    (boot_confirmation nvs).1.telemetry.length = 1 ∧
    (boot_confirmation nvs).2.confirmed = some 1 ∧
    (boot_confirmation (boot_confirmation nvs).2).1.attrs = [] ∧
    (boot_confirmation (boot_confirmation nvs).2).1.telemetry = [] ∧
    (boot_confirmation (boot_confirmation nvs).2).2 = (boot_confirmation nvs).2 ∧
    (∀ m : OtaNvs, m.confirmed = some 1 → boot_confirmation m = (⟨[], []⟩, m)) := by
  have h1 : boot_confirmation nvs =
      (⟨[("current_fw_title", nvs.title.getD ""),
         ("current_fw_version", nvs.version.getD "")],
        [Telem.updated (nvs.title.getD "") (nvs.version.getD "")]⟩,
       { nvs with confirmed := some 1 }) := by
    unfold boot_confirmation
    rw [if_pos h]
  have h2 : ∀ m : OtaNvs, m.confirmed = some 1 → boot_confirmation m = (⟨[], []⟩, m) := by
    intro m hm
    unfold boot_confirmation
    rw [if_neg (by simp [hm])]
  have hc : ({ nvs with confirmed := some 1 } : OtaNvs).confirmed = some 1 := rfl
  have hb2 : (boot_confirmation nvs).2 = { nvs with confirmed := some 1 } := by rw [h1]
  refine ⟨?_, ?_, ?_, ?_, ?_, ?_, h2⟩
  · rw [h1]
  · rw [h1]
    rfl
  · rw [hb2]
  · rw [hb2, h2 _ hc]
  · rw [hb2, h2 _ hc]
  · rw [hb2, h2 _ hc]

/-- C7 witness: the record a successful apply leaves behind (version
"1.1", title "sensor-fw", confirmed=0) is confirmed exactly once. -/
theorem C7_witness :
    (boot_confirmation ⟨some "1.1", some "sensor-fw", some 0⟩).1.telemetry =
      [Telem.updated "sensor-fw" "1.1"] ∧
    (boot_confirmation ⟨some "1.1", some "sensor-fw", some 0⟩).2.confirmed = some 1 ∧
    (boot_confirmation (boot_confirmation ⟨some "1.1", some "sensor-fw", some 0⟩).2).1.telemetry
      = [] := by
  have h := C7_boot_confirmation_once ⟨some "1.1", some "sensor-fw", some 0⟩ rfl
  exact ⟨by decide, h.2.2.1, h.2.2.2.2.1⟩

/-! ### Claims about the attribute-driven version gate -/

theorem jIsString_strVal {o : Option JVal} (h : jIsString o = true) :
    ∃ s, o = some (.jstr s) := by
  cases o with
  | none => simp [jIsString] at h
  | some v =>
    cases v with
    | jstr s => exact ⟨s, rfl⟩
    | jnum r => simp [jIsString] at h
    | jobj fs => simp [jIsString] at h
    | jother => simp [jIsString] at h

theorem handle_payload_gate (env : AttrEnv) (nvs : OtaNvs) (pending0 : Option PendingOta)
    (payload : JVal) (v : String)
    (hv : fota_requested_version payload = some v)
    (hnvs : nvs.version = some v) (hne : v ≠ "")
    (hro : env.nvs_ro_ok = true) (hrw : env.nvs_rw_ok = true) :
    handle_payload env nvs pending0 payload = ⟨nvs, pending0, false, false, false, false⟩ := by
  unfold handle_payload
  by_cases hfields : (jHasItemCI payload "fw_title" && jHasItemCI payload "fw_version" &&
      jHasItemCI payload "fw_size" && jHasItemCI payload "fw_checksum" &&
      jHasItemCI payload "fw_checksum_algorithm") = false
  · rw [if_pos hfields]
  · rw [if_neg hfields]
    by_cases hurl : jHasItemCI payload "fw_url" = true
    · rw [if_pos hurl]
      have hfr : ota_manager_apply_fota_from_attributes env nvs payload =
          ⟨nvs, false, false, false⟩ := by
        unfold ota_manager_apply_fota_from_attributes
        by_cases htype : (jIsString (jGetItem payload "fw_title") &&
            jIsString (jGetItem payload "fw_version") &&
            jIsNumber (jGetItem payload "fw_size") &&
            jIsString (jGetItem payload "fw_checksum") &&
            jIsString (jGetItem payload "fw_checksum_algorithm") &&
            jIsString (jGetItem payload "fw_url")) = false
        · rw [if_pos htype]
        · rw [if_neg htype]
          have htype' : (jIsString (jGetItem payload "fw_title") &&
              jIsString (jGetItem payload "fw_version") &&
              jIsNumber (jGetItem payload "fw_size") &&
              jIsString (jGetItem payload "fw_checksum") &&
              jIsString (jGetItem payload "fw_checksum_algorithm") &&
              jIsString (jGetItem payload "fw_url")) = true :=
            Bool.not_eq_false _ |>.mp htype
          simp only [Bool.and_eq_true] at htype'
          obtain ⟨⟨⟨⟨⟨ha, hb⟩, hc⟩, hd⟩, he⟩, hf⟩ := htype'
          obtain ⟨s, hs⟩ := jIsString_strVal hb
          have hfv : fota_requested_version payload = some s := by
            unfold fota_requested_version
            rw [hs]
          have hsv : s = v := Option.some.inj ((hfv.symm.trans hv))
          have hlast : (if env.nvs_rw_ok then nvs.version.getD "" else "") = v := by
            rw [hrw, if_pos rfl, hnvs]
            rfl
          have hjv : (jStrVal (jGetItem payload "fw_version")).getD "" = v := by
            rw [hs]
            exact hsv
          have hcond : (((if env.nvs_rw_ok then nvs.version.getD "" else "") != "") &&
              ((if env.nvs_rw_ok then nvs.version.getD "" else "") ==
                (jStrVal (jGetItem payload "fw_version")).getD "")) = true := by
            rw [hlast, hjv]
            simp [bne_iff_ne, hne]
          rw [if_pos hcond]
      rw [hfr]
    · rw [if_neg hurl]
      unfold handle_title_branch
      by_cases htb : jIsString (jGetItem payload "fw_title") = false ∨
          (jGetItem payload "fw_version").isNone = true
      · rw [if_pos htb]
      · rw [if_neg htb]
        have hcond : (match fota_requested_version payload with
            | some v' =>
              env.nvs_ro_ok &&
                (match nvs.version with
                 | some nv => (nv != "") && (nv == v')
                 | none => false)
            | none => false) = true := by
          rw [hv, hnvs, hro]
          simp [bne_iff_ne, hne]
        rw [if_pos hcond]

/-- C2 counterexample: a push whose requested version is the empty string
while the persisted NVS version is also the empty string. The requested
version equals the persisted one, yet the version gate does not fire
(the source requires nvs_version[0] != the NUL terminator), so the
preflight HEAD request and the download are performed: network activity
happens, contradicting the claim as stated. -/
theorem C2_empty_version_not_gated :
    fota_requested_version (select_fota_payload rootC2) = some "" ∧
    nvsC2.version = some "" ∧
    (ota_manager_handle_attribute_update attrEnvOk nvsC2 none (some rootC2)).preflightHttp
      = true ∧
    (ota_manager_handle_attribute_update attrEnvOk nvsC2 none (some rootC2)).downloadAttempted
      = true :=
  ⟨rfl, rfl, rfl, rfl⟩

/-- C2 (amended): for every cloud attribute push whose requested version
string is non-empty and equals the version persisted in the FirmwareRecord
(with NVS readable), the Update Controller short-circuits to a no-op
before any network activity: no preflight request, no download, and no
change to the persisted record, the pending slot, or the running image. -/
theorem C2_version_gate (env : AttrEnv) (nvs : OtaNvs) (pending0 : Option PendingOta)
    (root : JVal) (v : String)
    (hv : fota_requested_version (select_fota_payload root) = some v)
    (hnvs : nvs.version = some v) (hne : v ≠ "")
    (hro : env.nvs_ro_ok = true) (hrw : env.nvs_rw_ok = true) :
    ota_manager_handle_attribute_update env nvs pending0 (some root) =
      ⟨nvs, pending0, false, false, false, false⟩ :=
  handle_payload_gate env nvs pending0 (select_fota_payload root) v hv hnvs hne hro hrw

/-- C2 witness: a push for version "1.2.3" against a record already at
"1.2.3" is a complete no-op. -/
theorem C2_witness :
    ota_manager_handle_attribute_update attrEnvOk nvsC2W none (some rootC2W) =
      ⟨nvsC2W, none, false, false, false, false⟩ :=
  C2_version_gate attrEnvOk nvsC2W none rootC2W "1.2.3" rfl rfl (by decide) rfl rfl

end Esp32
